import Mathlib

/-!
Shallow embedding of `src/sushy/resources/chassis/chassis.py` (the Redfish
Chassis resource mapper) and the contracts of its collaborators.

The file `chassis.py` is the authoritative source for the `Chassis` resource
and its reset-action protocol.  Its collaborators — the declarative
field-resolution framework (`sushy.resources.base`), the common field classes
(`sushy.resources.common`), the enumeration tables (`sushy.resources.mappings`
and `sushy.resources.chassis.mappings`) and the exception classes
(`sushy.exceptions`) — are part of the repository but their files are not
available here; they are modelled from the specification's description of
their contracts, and each such definition carries a doc comment starting
with `Modelled from the spec:`.

Side effects (log warnings and connector POSTs) are made explicit as a
`Trace` value returned next to the result; exceptions are an `Except` value.
-/

/-- Modelled from the spec: the semantic reset constants (`sushy.RESET_*`,
declared outside src/): the stable constants that the wire-format reset-type
strings map to. -/
inductive ResetType where
  | resetOn
  | forceOn
  | forceOff
  | gracefulShutdown
  | gracefulRestart
  | forceRestart
  | nmi
  | pushPowerButton
deriving DecidableEq, Fintype, Repr

/-- Association-list lookup, the model of a Python `dict` lookup
(`m.get(k)` / `m[k]`).  Later bindings are shadowed by earlier ones;
the modelled tables have distinct keys so the order is irrelevant. -/
def assocLookup {α : Type} (m : List (String × α)) (k : String) : Option α :=
  match m with
  | [] => none
  | (k0, v0) :: rest => if k == k0 then some v0 else assocLookup rest k

/-- Modelled from the spec: `sushy.resources.mappings.RESET_TYPE_VALUE_MAP`
(outside src/), the bidirectional reset-type enumeration's forward table
from wire-format strings to semantic constants. -/
def RESET_TYPE_VALUE_MAP : List (String × ResetType) :=
  [("On", ResetType.resetOn),
   ("ForceOn", ResetType.forceOn),
   ("ForceOff", ResetType.forceOff),
   ("GracefulShutdown", ResetType.gracefulShutdown),
   ("GracefulRestart", ResetType.gracefulRestart),
   ("ForceRestart", ResetType.forceRestart),
   ("Nmi", ResetType.nmi),
   ("PushPowerButton", ResetType.pushPowerButton)]

/-- Modelled from the spec: `RESET_TYPE_VALUE_MAP_REV` (outside src/), the
reverse table obtained by inverting the forward table
(`utils.revert_dictionary`); the spec's invariant is that forward and
reverse are exact inverses. -/
def RESET_TYPE_VALUE_MAP_REV : List (ResetType × String) :=
  RESET_TYPE_VALUE_MAP.map (fun p => (p.2, p.1))

/-- Lookup in the reverse table (a `dict` keyed by semantic constants). -/
def revLookup (m : List (ResetType × String)) (k : ResetType) : Option String :=
  match m with
  | [] => none
  | (k0, v0) :: rest => if k = k0 then some v0 else revLookup rest k

/-- Modelled from the spec: `sushy.resources.common.ResetActionField`
(outside src/), the action descriptor composite: a target URI plus an
optional ordered list of wire-format allowed values. -/
structure ResetActionField where
  target_uri : String
  allowed_values : Option (List String)
deriving DecidableEq, Repr

/-- `ActionsField` from `chassis.py`: the Actions composite declares the one
sub-descriptor `reset = common.ResetActionField('#Chassis.Reset')`; the
sub-field is absent (`none`) when the `#Chassis.Reset` key is absent. -/
structure ActionsField where
  reset : Option ResetActionField
deriving DecidableEq, Repr

/-- A JSON value, the model of the documents the connector fetches. -/
inductive JVal where
  | str : String → JVal
  | num : Int → JVal
  | bool : Bool → JVal
  | arr : List JVal → JVal
  | obj : List (String × JVal) → JVal

/-- `PhysicalSecurity` composite from `chassis.py`: the mapped sub-fields
resolve to `none` when absent or unmapped (the spec's unknown sentinel). -/
structure PhysicalSecurity where
  intrusion_sensor : Option String
  intrusion_sensor_number : Option JVal
  intrusion_sensor_re_arm : Option String

/-- The `Chassis` resource of `chassis.py`: the resolved values of every
field it declares, together with the resource path and the resolved
`Actions` composite.  Plain optional fields hold the raw JSON value or
`none`; mapped optional fields hold the forward-mapped constant or `none`
(absent or unmapped both give the spec's unknown sentinel); the three
required fields (`ChassisType`, `Id`, `Name`) are enforced at load time. -/
structure Chassis where
  _path : String
  chassis_type : Option String
  identity : JVal
  name : JVal
  asset_tag : Option JVal
  depth_mm : Option JVal
  description : Option JVal
  height_mm : Option JVal
  indicator_led : Option String
  manufacturer : Option JVal
  model : Option JVal
  part_number : Option JVal
  physical_security : Option PhysicalSecurity
  power_state : Option String
  serial_number : Option JVal
  sku : Option JVal
  status : Option (List (String × JVal))
  uuid : Option JVal
  weight_kg : Option JVal
  width_mm : Option JVal
  _actions : Option ActionsField

/-- Modelled from the spec: the exception classes of `sushy.exceptions`
(outside src/), carrying the payloads the spec's error taxonomy names. -/
inductive SushyError where
  | missingAttributeError (attr : String) (resource : String)
  | missingActionError (action : String) (resource : String)
  | invalidParameterValueError (parameter : String) (value : ResetType)
      (valid_values : Finset ResetType)
  | keyError
deriving DecidableEq

/-- A POST request issued through the connector: target URI and JSON body. -/
structure Request where
  uri : String
  body : List (String × String)
deriving DecidableEq, Repr

/-- The externally observable side effects of one operation: how many
diagnostic warnings were logged and which POSTs were issued through the
connector (GETs are not issued by the operations modelled here, and debug
or info log lines are not diagnostics the spec tracks). -/
structure Trace where
  warnings : Nat
  posts : List Request
deriving DecidableEq, Repr

/-- Python truthiness of the `allowed_values` attribute: `None` and the
empty list are falsy, a non-empty list is truthy. -/
def avTruthy : Option (List String) → Bool
  | none => false
  | some l => !l.isEmpty

/-- `Chassis._get_reset_action_element` (chassis.py lines 152-158):
`reset_action = self._actions.reset; if not reset_action: raise
MissingActionError(action='#Chassis.Reset', resource=self._path)`.
Reading `.reset` through the Actions composite when the whole composite is
absent is modelled from the spec: a composite whose path is absent resolves
to an absent value and the action key is then absent as well, which is the
`MissingActionError` case (spec 4.3 step 1). -/
def _get_reset_action_element (c : Chassis) : Except SushyError ResetActionField :=
  match c._actions.bind (fun a => a.reset) with
  | none => Except.error (SushyError.missingActionError "#Chassis.Reset" c._path)
  | some reset_action => Except.ok reset_action

/-- `Chassis.get_allowed_reset_chassis_values` (chassis.py lines 160-176):
if the allowed-values list is falsy, log one warning and return the set of
keys of the reverse table (the full semantic universe); otherwise intersect
the forward table's keys with the allowed list and map each survivor
through the forward table. -/
def get_allowed_reset_chassis_values (c : Chassis) :
    Trace × Except SushyError (Finset ResetType) :=
  match _get_reset_action_element c with
  | Except.error e => (⟨0, []⟩, Except.error e)
  | Except.ok reset_action =>
    if avTruthy reset_action.allowed_values then
      (⟨0, []⟩, Except.ok
        (((RESET_TYPE_VALUE_MAP.map Prod.fst).filter
            (fun v => (reset_action.allowed_values.getD []).contains v)).filterMap
          (assocLookup RESET_TYPE_VALUE_MAP)).toFinset)
    else
      (⟨1, []⟩, Except.ok ((RESET_TYPE_VALUE_MAP_REV.map Prod.fst).toFinset))

/-- `Chassis.reset_chassis` (chassis.py lines 178-195): compute the allowed
set, fail fast with `InvalidParameterValueError` when the value is not in
it, otherwise map the value through the reverse table and POST
`{"ResetType": wire}` to the action's target URI.  A reverse-table miss
would be a Python `KeyError`; it is proved unreachable below. -/
def reset_chassis (c : Chassis) (value : ResetType) :
    Trace × Except SushyError Unit :=
  let t := (get_allowed_reset_chassis_values c).1
  match (get_allowed_reset_chassis_values c).2 with
  | Except.error e => (t, Except.error e)
  | Except.ok valid_resets =>
    if value ∈ valid_resets then
      match revLookup RESET_TYPE_VALUE_MAP_REV value with
      | none => (t, Except.error SushyError.keyError)
      | some wire =>
        match _get_reset_action_element c with
        | Except.error e => (t, Except.error e)
        | Except.ok reset_action =>
          ({ t with
             posts := t.posts ++ [⟨reset_action.target_uri, [("ResetType", wire)]⟩] },
           Except.ok ())
    else
      (t, Except.error
        (SushyError.invalidParameterValueError "value" value valid_resets))

/-- Lookup of a key in a JSON object (`body.get(key)`). -/
def jGet (doc : List (String × JVal)) (key : String) : Option JVal :=
  (doc.find? (fun p => p.1 == key)).map Prod.snd

/-- The string payload of a JSON value, if it is a string. -/
def jvalStr : JVal → Option String
  | JVal.str s => some s
  | _ => none

/-- Modelled from the spec: `base.Field` resolution (outside src/) for a
required field: the raw value at the path, or `MissingAttributeError`
naming the attribute and the resource's path when absent. -/
def requireField (path : String) (doc : List (String × JVal)) (key : String) :
    Except SushyError JVal :=
  match jGet doc key with
  | some v => Except.ok v
  | none => Except.error (SushyError.missingAttributeError key path)

/-- Modelled from the spec: `base.MappedField` resolution (outside src/):
the raw wire string looked up in the forward table; absent or unmapped
values resolve to the unknown sentinel (`none`), never an error. -/
def resolveMapped (m : List (String × String)) (doc : List (String × JVal))
    (key : String) : Option String :=
  (jGet doc key).bind (fun v => (jvalStr v).bind (assocLookup m))

/-- Modelled from the spec: `CHASSIS_TYPE_VALUE_MAP` (outside src/), the
chassis-type enumeration; representative entries of the Redfish v1.8.0
schema (the claims depend only on the field's requiredness, not on the
table's contents). -/
def CHASSIS_TYPE_VALUE_MAP : List (String × String) :=
  [("Rack", "rack"), ("Blade", "blade"), ("Enclosure", "enclosure"),
   ("StandAlone", "standalone"), ("RackMount", "rack mount"),
   ("Card", "card"), ("Sled", "sled"), ("Drawer", "drawer"),
   ("Other", "other")]

/-- Modelled from the spec: `INDICATOR_LED_VALUE_MAP` (outside src/). -/
def INDICATOR_LED_VALUE_MAP : List (String × String) :=
  [("Lit", "lit"), ("Blinking", "blinking"), ("Off", "off"),
   ("Unknown", "unknown")]

/-- Modelled from the spec: `POWER_STATE_VALUE_MAP` (outside src/). -/
def POWER_STATE_VALUE_MAP : List (String × String) :=
  [("On", "on"), ("Off", "off"), ("PoweringOn", "powering on"),
   ("PoweringOff", "powering off")]

/-- Modelled from the spec: `CHASSIS_INTRUSION_SENSOR_MAP` (outside src/). -/
def CHASSIS_INTRUSION_SENSOR_MAP : List (String × String) :=
  [("Normal", "normal"), ("HardwareIntrusion", "hardware intrusion"),
   ("TamperingDetected", "tampering detected")]

/-- Modelled from the spec: `CHASSIS_INTRUSION_SENSOR_RE_ARM_MAP`
(outside src/). -/
def CHASSIS_INTRUSION_SENSOR_RE_ARM_MAP : List (String × String) :=
  [("Manual", "manual"), ("Automatic", "automatic")]

/-- Resolution of the `PhysicalSecurity` composite declared in chassis.py:
absent path (or non-object value, outside the documented model) resolves to
an absent composite; no sub-field is required, so it cannot fail. -/
def resolvePhysicalSecurity (doc : List (String × JVal)) :
    Option PhysicalSecurity :=
  match jGet doc "PhysicalSecurity" with
  | some (JVal.obj sub) =>
    some ⟨resolveMapped CHASSIS_INTRUSION_SENSOR_MAP sub "IntrusionSensor",
          jGet sub "IntrusionSensorNumber",
          resolveMapped CHASSIS_INTRUSION_SENSOR_RE_ARM_MAP sub
            "IntrusionSensorReArm"⟩
  | _ => none

/-- Modelled from the spec: `common.StatusField` (outside src/) is a
composite field; no claim depends on its sub-fields, so it resolves to the
raw sub-document. -/
def resolveStatus (doc : List (String × JVal)) :
    Option (List (String × JVal)) :=
  match jGet doc "Status" with
  | some (JVal.obj sub) => some sub
  | _ => none

/-- Modelled from the spec: resolution of `common.ResetActionField`
(outside src/): the action descriptor holds the required `target` URI
string and the optional `ResetType@Redfish.AllowedValues` list, whose
string elements become the allowed-values list. -/
def parseResetActionField (path : String) (sub : List (String × JVal)) :
    Except SushyError ResetActionField :=
  match jGet sub "target" with
  | some (JVal.str uri) =>
    Except.ok
      ⟨uri,
       match jGet sub "ResetType@Redfish.AllowedValues" with
       | some (JVal.arr xs) => some (xs.filterMap jvalStr)
       | _ => none⟩
  | _ =>
    Except.error
      (SushyError.missingAttributeError "Actions/#Chassis.Reset/target" path)

/-- Resolution of the `ActionsField` composite declared in chassis.py: its
one sub-descriptor `reset` sits at key `#Chassis.Reset` and is absent
(`none`) when that key is absent. -/
def parseActionsField (path : String) (sub : List (String × JVal)) :
    Except SushyError ActionsField :=
  match jGet sub "#Chassis.Reset" with
  | some (JVal.obj rsub) =>
    (parseResetActionField path rsub).map (fun r => ⟨some r⟩)
  | _ => Except.ok ⟨none⟩

/-- Resolution of the whole `Actions` composite: absent path (spec 4.1)
resolves to an absent composite, not an error. -/
def resolveActions (path : String) (doc : List (String × JVal)) :
    Except SushyError (Option ActionsField) :=
  match jGet doc "Actions" with
  | some (JVal.obj sub) => (parseActionsField path sub).map some
  | _ => Except.ok none

/-- Load of a Chassis resource from a fetched document: every field
declared in chassis.py is resolved in declaration order by the
spec-modelled resolution rules; the three required fields (`ChassisType`,
`Id`, `Name`) fail the load with `MissingAttributeError` when absent. -/
def parseChassis (path : String) (doc : List (String × JVal)) :
    Except SushyError Chassis :=
  match requireField path doc "ChassisType" with
  | Except.error e => Except.error e
  | Except.ok ctRaw =>
    match requireField path doc "Id" with
    | Except.error e => Except.error e
    | Except.ok idRaw =>
      match requireField path doc "Name" with
      | Except.error e => Except.error e
      | Except.ok nameRaw =>
        match resolveActions path doc with
        | Except.error e => Except.error e
        | Except.ok acts =>
          Except.ok
            { _path := path
              chassis_type := (jvalStr ctRaw).bind
                (assocLookup CHASSIS_TYPE_VALUE_MAP)
              identity := idRaw
              name := nameRaw
              asset_tag := jGet doc "AssetTag"
              depth_mm := jGet doc "DepthMm"
              description := jGet doc "Description"
              height_mm := jGet doc "HeightMm"
              indicator_led := resolveMapped INDICATOR_LED_VALUE_MAP doc
                "IndicatorLED"
              manufacturer := jGet doc "Manufacturer"
              model := jGet doc "Model"
              part_number := jGet doc "PartNumber"
              physical_security := resolvePhysicalSecurity doc
              power_state := resolveMapped POWER_STATE_VALUE_MAP doc
                "PowerState"
              serial_number := jGet doc "SerialNumber"
              sku := jGet doc "SKU"
              status := resolveStatus doc
              uuid := jGet doc "UUID"
              weight_kg := jGet doc "WeightKg"
              width_mm := jGet doc "WidthMm"
              _actions := acts }

instance {ε α : Type} [DecidableEq ε] [DecidableEq α] :
    DecidableEq (Except ε α) := fun x y =>
  match x, y with
  | Except.ok a, Except.ok b =>
    if h : a = b then isTrue (by rw [h])
    else isFalse (by intro hc; cases hc; exact h rfl)
  | Except.error a, Except.error b =>
    if h : a = b then isTrue (by rw [h])
    else isFalse (by intro hc; cases hc; exact h rfl)
  | Except.ok _, Except.error _ => isFalse (by intro hc; cases hc)
  | Except.error _, Except.ok _ => isFalse (by intro hc; cases hc)

/-- A successful `dict` lookup means the key is among the table's keys. -/
theorem mem_keys_of_assocLookup {α : Type} (m : List (String × α)) (k : String)
    (v : α) (h : assocLookup m k = some v) : k ∈ m.map Prod.fst := by
  induction m with
  | nil => simp [assocLookup] at h
  | cons p rest ih =>
    obtain ⟨k0, v0⟩ := p
    rw [assocLookup] at h
    by_cases hk : k == k0
    · simp only [List.map_cons, List.mem_cons]
      exact Or.inl (eq_of_beq hk)
    · rw [if_neg (by simp_all)] at h
      simp only [List.map_cons, List.mem_cons]
      exact Or.inr (ih h)

/-- The reverse table is total on the semantic constants: every constant
has a wire string, and the forward table maps that wire string back. -/
theorem revLookup_total (t : ResetType) :
    ∃ w, revLookup RESET_TYPE_VALUE_MAP_REV t = some w ∧
      assocLookup RESET_TYPE_VALUE_MAP w = some t := by
  cases t <;> exact ⟨_, rfl, rfl⟩

/-- The keys of the reverse table are the whole semantic universe. -/
theorem reset_universe_eq :
    (RESET_TYPE_VALUE_MAP_REV.map Prod.fst).toFinset =
      (Finset.univ : Finset ResetType) := by
  decide

/-- When the reset element is present, `_get_reset_action_element`
returns it. -/
theorem get_reset_ok {c : Chassis} {ra : ResetActionField}
    (h : c._actions.bind (fun a => a.reset) = some ra) :
    _get_reset_action_element c = Except.ok ra := by
  unfold _get_reset_action_element
  rw [h]

/-- When the reset element is absent, `_get_reset_action_element` raises
`MissingActionError`. -/
theorem get_reset_err {c : Chassis}
    (h : c._actions.bind (fun a => a.reset) = none) :
    _get_reset_action_element c =
      Except.error (SushyError.missingActionError "#Chassis.Reset" c._path) := by
  unfold _get_reset_action_element
  rw [h]

/-- `get_allowed_reset_chassis_values` never POSTs. -/
theorem get_allowed_posts_nil (c : Chassis) :
    (get_allowed_reset_chassis_values c).1.posts = [] := by
  unfold get_allowed_reset_chassis_values
  cases _get_reset_action_element c with
  | error e => rfl
  | ok ra =>
    by_cases h : avTruthy ra.allowed_values <;> simp [h]

/-- An error from the allowed-values computation propagates unchanged
through `reset_chassis`. -/
theorem reset_chassis_err_propagate {c : Chassis} {e : SushyError}
    (h : (get_allowed_reset_chassis_values c).2 = Except.error e)
    (value : ResetType) : (reset_chassis c value).2 = Except.error e := by
  unfold reset_chassis
  rw [h]

/-- A loaded Chassis whose reset action permits GracefulShutdown and
ForceOff, as in the spec's worked example. -/
def sampleChassis : Chassis :=
  { _path := "/redfish/v1/Chassis/Blade1"
    chassis_type := some "blade"
    identity := JVal.str "Blade1"
    name := JVal.str "Blade"
    asset_tag := none
    depth_mm := none
    description := none
    height_mm := none
    indicator_led := none
    manufacturer := none
    model := none
    part_number := none
    physical_security := none
    power_state := none
    serial_number := none
    sku := none
    status := none
    uuid := none
    weight_kg := none
    width_mm := none
    _actions := some
      ⟨some ⟨"/redfish/v1/Chassis/Blade1/Actions/Chassis.Reset",
             some ["GracefulShutdown", "ForceOff"]⟩⟩ }

/-- The same Chassis with a present-but-empty allowed-values list. -/
def sampleChassisEmptyAV : Chassis :=
  { sampleChassis with
    _actions := some
      ⟨some ⟨"/redfish/v1/Chassis/Blade1/Actions/Chassis.Reset", some []⟩⟩ }

/-- The same Chassis whose allowed-values list holds only a wire value
unknown to the reset-type enumeration. -/
def sampleChassisUnknownAV : Chassis :=
  { sampleChassis with
    _actions := some
      ⟨some ⟨"/redfish/v1/Chassis/Blade1/Actions/Chassis.Reset",
             some ["Vendor1"]⟩⟩ }

/-- A fetched document holding only the three required Chassis fields and
no Actions key. -/
def sampleDocNoActions : List (String × JVal) :=
  [("ChassisType", JVal.str "Blade"), ("Id", JVal.str "Blade1"),
   ("Name", JVal.str "Blade")]

/-- The Chassis that loading `sampleDocNoActions` produces. -/
def sampleChassisNoActions : Chassis :=
  { sampleChassis with chassis_type := some "blade", _actions := none }

/-- C1: for a loaded Chassis whose reset action descriptor is present with a
non-empty allowed-values list, `get_allowed_reset_chassis_values` returns
exactly the semantic constants of those wire-format allowed values that are
keys of the reset-type enumeration. -/
theorem reset_allowed_values_populated (c : Chassis) (ra : ResetActionField)
    (l : List String)
    (hra : c._actions.bind (fun a => a.reset) = some ra)
    (hav : ra.allowed_values = some l) (hne : l ≠ []) :
    ∃ s, (get_allowed_reset_chassis_values c).2 = Except.ok s ∧
      ∀ t, t ∈ s ↔ ∃ w, w ∈ l ∧ w ∈ RESET_TYPE_VALUE_MAP.map Prod.fst ∧
        assocLookup RESET_TYPE_VALUE_MAP w = some t := by
  have htr : avTruthy ra.allowed_values = true := by
    rw [hav]
    simp [avTruthy, hne]
  unfold get_allowed_reset_chassis_values
  rw [get_reset_ok hra]
  simp only [htr, if_true]
  refine ⟨_, rfl, fun t => ?_⟩
  rw [hav]
  simp only [Option.getD_some, List.mem_toFinset, List.mem_filterMap,
    List.mem_filter]
  constructor
  · rintro ⟨w, ⟨hwk, hwc⟩, hwf⟩
    exact ⟨w, List.elem_iff.mp hwc, hwk, hwf⟩
  · rintro ⟨w, hwl, hwk, hwf⟩
    exact ⟨w, ⟨hwk, List.elem_iff.mpr hwl⟩, hwf⟩

/-- C1 witness: the spec's worked example, `AllowedValues:
["GracefulShutdown","ForceOff"]`. -/
theorem reset_allowed_values_populated_witness :
    ∃ s, (get_allowed_reset_chassis_values sampleChassis).2 = Except.ok s ∧
      ∀ t, t ∈ s ↔ ∃ w, w ∈ ["GracefulShutdown", "ForceOff"] ∧
        w ∈ RESET_TYPE_VALUE_MAP.map Prod.fst ∧
        assocLookup RESET_TYPE_VALUE_MAP w = some t :=
  reset_allowed_values_populated sampleChassis _ _ rfl rfl (by decide)

/-- C2: for a loaded Chassis whose reset action descriptor is present with
an empty or absent allowed-values list, `get_allowed_reset_chassis_values`
does not raise: it returns the full semantic universe and logs one
non-fatal diagnostic warning. -/
theorem reset_allowed_values_fallback (c : Chassis) (ra : ResetActionField)
    (hra : c._actions.bind (fun a => a.reset) = some ra)
    (hav : ra.allowed_values = none ∨ ra.allowed_values = some []) :
    (get_allowed_reset_chassis_values c).2 =
      Except.ok (Finset.univ : Finset ResetType) ∧
    (get_allowed_reset_chassis_values c).1.warnings = 1 := by
  have hfa : avTruthy ra.allowed_values = false := by
    rcases hav with h | h <;> rw [h] <;> rfl
  unfold get_allowed_reset_chassis_values
  rw [get_reset_ok hra]
  simp only [hfa, Bool.false_eq_true, if_false]
  exact ⟨by rw [reset_universe_eq], trivial⟩

/-- C2 witness: a present reset action with `AllowedValues: []`. -/
theorem reset_allowed_values_fallback_witness :
    (get_allowed_reset_chassis_values sampleChassisEmptyAV).2 =
      Except.ok (Finset.univ : Finset ResetType) ∧
    (get_allowed_reset_chassis_values sampleChassisEmptyAV).1.warnings = 1 :=
  reset_allowed_values_fallback sampleChassisEmptyAV _ rfl (Or.inr rfl)

/-- C7: the reset-type tables round-trip: a wire value present in the
forward table is recovered by the reverse table from its semantic constant,
so the wire string `reset_chassis` later POSTs for that constant is the
original wire value. -/
theorem reset_type_map_round_trip (v : String) (t : ResetType)
    (h : assocLookup RESET_TYPE_VALUE_MAP v = some t) :
    revLookup RESET_TYPE_VALUE_MAP_REV t = some v := by
  have hv := mem_keys_of_assocLookup _ _ _ h
  simp only [RESET_TYPE_VALUE_MAP, List.map_cons, List.map_nil,
    List.mem_cons, List.not_mem_nil, or_false] at hv
  rcases hv with rfl | rfl | rfl | rfl | rfl | rfl | rfl | rfl <;>
    (injection h with h2; rw [← h2]; rfl)

/-- C7 witness: the round trip at the wire value GracefulShutdown. -/
theorem reset_type_map_round_trip_witness :
    revLookup RESET_TYPE_VALUE_MAP_REV ResetType.gracefulShutdown =
      some "GracefulShutdown" :=
  reset_type_map_round_trip "GracefulShutdown" ResetType.gracefulShutdown rfl

/-- C8: `get_allowed_reset_chassis_values` is side-effect free: it issues
no POST (nor any other state-changing connector call); the embedded
operation is a pure read of the resource, so the stored document and the
resolved attribute values are untouched by construction. -/
theorem get_allowed_no_side_effects (c : Chassis) :
    (get_allowed_reset_chassis_values c).1.posts = [] :=
  get_allowed_posts_nil c

/-- C10: every allowed set the operation returns is contained in the full
semantic universe, the keys of the reverse table. -/
theorem allowed_values_subset_universe (c : Chassis) (s : Finset ResetType)
    (h : (get_allowed_reset_chassis_values c).2 = Except.ok s) :
    s ⊆ (RESET_TYPE_VALUE_MAP_REV.map Prod.fst).toFinset := by
  rw [reset_universe_eq]
  exact Finset.subset_univ s

/-- C3: a reset value outside the allowed set fails fast with
`InvalidParameterValueError` carrying the parameter name, the supplied
value and the valid values, and no POST is issued. -/
theorem reset_chassis_invalid_value (c : Chassis) (value : ResetType)
    (valid : Finset ResetType)
    (hok : (get_allowed_reset_chassis_values c).2 = Except.ok valid)
    (hnot : value ∉ valid) :
    (reset_chassis c value).2 =
      Except.error
        (SushyError.invalidParameterValueError "value" value valid) ∧
    (reset_chassis c value).1.posts = [] := by
  unfold reset_chassis
  rw [hok]
  simp only [if_neg hnot]
  exact ⟨trivial, get_allowed_posts_nil c⟩

/-- C3 witness: on a Chassis whose allowed set is empty, requesting Nmi
fails with the error payload and issues no POST. -/
theorem reset_chassis_invalid_value_witness :
    (reset_chassis sampleChassisUnknownAV ResetType.nmi).2 =
      Except.error (SushyError.invalidParameterValueError "value"
        ResetType.nmi ∅) ∧
    (reset_chassis sampleChassisUnknownAV ResetType.nmi).1.posts = [] :=
  reset_chassis_invalid_value sampleChassisUnknownAV ResetType.nmi ∅
    (by decide) (by decide)

/-- C4: a reset value inside the allowed set issues exactly one POST to the
action's target URI with body ResetType mapped through the reverse table,
and succeeds without interpreting a response body. -/
theorem reset_chassis_valid_value (c : Chassis) (ra : ResetActionField)
    (value : ResetType) (valid : Finset ResetType)
    (hra : c._actions.bind (fun a => a.reset) = some ra)
    (hok : (get_allowed_reset_chassis_values c).2 = Except.ok valid)
    (hmem : value ∈ valid) :
    ∃ w, revLookup RESET_TYPE_VALUE_MAP_REV value = some w ∧
      assocLookup RESET_TYPE_VALUE_MAP w = some value ∧
      (reset_chassis c value).1.posts =
        [⟨ra.target_uri, [("ResetType", w)]⟩] ∧
      (reset_chassis c value).2 = Except.ok () := by
  obtain ⟨w, hw, hwf⟩ := revLookup_total value
  refine ⟨w, hw, hwf, ?_, ?_⟩
  · unfold reset_chassis
    rw [hok]
    simp only [if_pos hmem, hw, get_reset_ok hra]
    simp [get_allowed_posts_nil]
  · unfold reset_chassis
    rw [hok]
    simp only [if_pos hmem, hw, get_reset_ok hra]

/-- C4 witness: the worked example accepts GracefulShutdown and POSTs its
wire string to the action's target URI. -/
theorem reset_chassis_valid_value_witness :
    ∃ w, revLookup RESET_TYPE_VALUE_MAP_REV ResetType.gracefulShutdown =
        some w ∧
      assocLookup RESET_TYPE_VALUE_MAP w = some ResetType.gracefulShutdown ∧
      (reset_chassis sampleChassis ResetType.gracefulShutdown).1.posts =
        [⟨"/redfish/v1/Chassis/Blade1/Actions/Chassis.Reset",
          [("ResetType", w)]⟩] ∧
      (reset_chassis sampleChassis ResetType.gracefulShutdown).2 =
        Except.ok () :=
  reset_chassis_valid_value sampleChassis _ ResetType.gracefulShutdown _
    rfl rfl (by decide)

/-- C9: a present, non-empty allowed-values list holding only wire strings
unknown to the enumeration yields the empty allowed set — no fallback, no
warning — so every reset value is rejected with
`InvalidParameterValueError` and no POST. -/
theorem unknown_allowed_values_empty_set (c : Chassis)
    (ra : ResetActionField) (l : List String)
    (hra : c._actions.bind (fun a => a.reset) = some ra)
    (hav : ra.allowed_values = some l) (hne : l ≠ [])
    (hunk : ∀ w ∈ l, assocLookup RESET_TYPE_VALUE_MAP w = none) :
    (get_allowed_reset_chassis_values c).2 =
      Except.ok (∅ : Finset ResetType) ∧
    (get_allowed_reset_chassis_values c).1.warnings = 0 ∧
    ∀ value, (reset_chassis c value).2 =
        Except.error
          (SushyError.invalidParameterValueError "value" value ∅) ∧
      (reset_chassis c value).1.posts = [] := by
  have htr : avTruthy ra.allowed_values = true := by
    rw [hav]
    simp [avTruthy, hne]
  have hnil : ((RESET_TYPE_VALUE_MAP.map Prod.fst).filter
      (fun v => (ra.allowed_values.getD []).contains v)).filterMap
      (assocLookup RESET_TYPE_VALUE_MAP) = [] := by
    rw [List.filterMap_eq_nil_iff]
    intro a ha
    rw [hav] at ha
    simp only [Option.getD_some, List.mem_filter] at ha
    exact hunk a (List.elem_iff.mp ha.2)
  have hok : (get_allowed_reset_chassis_values c).2 =
      Except.ok (∅ : Finset ResetType) := by
    unfold get_allowed_reset_chassis_values
    rw [get_reset_ok hra]
    simp only [htr, if_true, hnil, List.toFinset_nil]
  refine ⟨hok, ?_, fun value => ?_⟩
  · unfold get_allowed_reset_chassis_values
    rw [get_reset_ok hra]
    simp only [htr, if_true]
  · refine ⟨?_, ?_⟩
    · unfold reset_chassis
      rw [hok]
      simp only [if_neg (Finset.not_mem_empty value)]
    · unfold reset_chassis
      rw [hok]
      simp only [if_neg (Finset.not_mem_empty value)]
      exact get_allowed_posts_nil c

/-- C9 witness: a Chassis whose only allowed wire value is the vendor
extension Vendor1. -/
theorem unknown_allowed_values_empty_set_witness :
    (get_allowed_reset_chassis_values sampleChassisUnknownAV).2 =
      Except.ok (∅ : Finset ResetType) ∧
    (get_allowed_reset_chassis_values sampleChassisUnknownAV).1.warnings = 0 ∧
    ∀ value, (reset_chassis sampleChassisUnknownAV value).2 =
        Except.error
          (SushyError.invalidParameterValueError "value" value ∅) ∧
      (reset_chassis sampleChassisUnknownAV value).1.posts = [] :=
  unknown_allowed_values_empty_set sampleChassisUnknownAV _ _ rfl rfl
    (by decide) (by decide)

/-- C5: a Chassis loaded from a document without the reset action
descriptor — in particular one without the Actions key at all — fails
`get_allowed_reset_chassis_values` (and hence `reset_chassis`) with
`MissingActionError` naming the action and the resource's path. -/
theorem missing_reset_action (path : String) (doc : List (String × JVal))
    (c : Chassis) (hp : parseChassis path doc = Except.ok c) :
    (jGet doc "Actions" = none → c._actions = none) ∧
    ((c._actions.bind fun a => a.reset) = none →
      (get_allowed_reset_chassis_values c).2 =
        Except.error
          (SushyError.missingActionError "#Chassis.Reset" path) ∧
      ∀ value, (reset_chassis c value).2 =
        Except.error
          (SushyError.missingActionError "#Chassis.Reset" path)) := by
  unfold parseChassis at hp
  split at hp
  · exact Except.noConfusion hp
  · split at hp
    · exact Except.noConfusion hp
    · split at hp
      · exact Except.noConfusion hp
      · split at hp
        · exact Except.noConfusion hp
        · rename_i acts heq
          injection hp with hc
          subst hc
          constructor
          · intro habs
            have hres : resolveActions path doc = Except.ok none := by
              unfold resolveActions
              rw [habs]
            rw [hres] at heq
            injection heq with ha
            exact ha.symm
          · intro hno
            have herr := get_reset_err hno
            refine ⟨?_, fun value => ?_⟩
            · unfold get_allowed_reset_chassis_values
              rw [herr]
            · apply reset_chassis_err_propagate
              unfold get_allowed_reset_chassis_values
              rw [herr]

/-- C5 witness: the three-field document without an Actions key loads, and
both operations then fail with `MissingActionError`. -/
theorem missing_reset_action_witness :
    (get_allowed_reset_chassis_values sampleChassisNoActions).2 =
      Except.error (SushyError.missingActionError "#Chassis.Reset"
        "/redfish/v1/Chassis/Blade1") ∧
    (reset_chassis sampleChassisNoActions ResetType.resetOn).2 =
      Except.error (SushyError.missingActionError "#Chassis.Reset"
        "/redfish/v1/Chassis/Blade1") :=
  ⟨((missing_reset_action "/redfish/v1/Chassis/Blade1" sampleDocNoActions
      sampleChassisNoActions rfl).2 rfl).1,
   ((missing_reset_action "/redfish/v1/Chassis/Blade1" sampleDocNoActions
      sampleChassisNoActions rfl).2 rfl).2 ResetType.resetOn⟩

/-- C6: a document missing a required field (`ChassisType`, `Id` or `Name`)
fails the load with `MissingAttributeError`, while the three required
fields being present (with the optional Actions key absent, as the
resolution of an absent composite cannot fail) makes the load succeed no
matter which optional fields are absent. -/
theorem required_fields_enforced (path : String)
    (doc : List (String × JVal)) :
    ((jGet doc "ChassisType" = none ∨ jGet doc "Id" = none ∨
        jGet doc "Name" = none) →
      ∃ a, (a = "ChassisType" ∨ a = "Id" ∨ a = "Name") ∧
        parseChassis path doc =
          Except.error (SushyError.missingAttributeError a path)) ∧
    (∀ ct i n acts, jGet doc "ChassisType" = some ct →
      jGet doc "Id" = some i → jGet doc "Name" = some n →
      resolveActions path doc = Except.ok acts →
      ∃ c, parseChassis path doc = Except.ok c) ∧
    (jGet doc "Actions" = none → resolveActions path doc = Except.ok none) := by
  refine ⟨?_, ?_, ?_⟩
  · intro hmiss
    cases h1 : jGet doc "ChassisType" with
    | none =>
      refine ⟨"ChassisType", Or.inl rfl, ?_⟩
      unfold parseChassis requireField
      rw [h1]
    | some ct =>
      cases h2 : jGet doc "Id" with
      | none =>
        refine ⟨"Id", Or.inr (Or.inl rfl), ?_⟩
        unfold parseChassis requireField
        rw [h1, h2]
      | some i =>
        cases h3 : jGet doc "Name" with
        | none =>
          refine ⟨"Name", Or.inr (Or.inr rfl), ?_⟩
          unfold parseChassis requireField
          rw [h1, h2, h3]
        | some n =>
          rw [h1, h2, h3] at hmiss
          simp at hmiss
  · intro ct i n acts h1 h2 h3 h4
    exact ⟨_, by unfold parseChassis requireField; rw [h1, h2, h3, h4]⟩
  · intro habs
    unfold resolveActions
    rw [habs]

/-- C6 witness: a document holding only an Id fails the load with a
required-field error, while the three-field document loads. -/
theorem required_fields_enforced_witness :
    (∃ a, (a = "ChassisType" ∨ a = "Id" ∨ a = "Name") ∧
      parseChassis "/redfish/v1/Chassis/Blade1"
          [("Id", JVal.str "Blade1")] =
        Except.error (SushyError.missingAttributeError a
          "/redfish/v1/Chassis/Blade1")) ∧
    (∃ c, parseChassis "/redfish/v1/Chassis/Blade1" sampleDocNoActions =
      Except.ok c) :=
  ⟨(required_fields_enforced "/redfish/v1/Chassis/Blade1"
      [("Id", JVal.str "Blade1")]).1 (Or.inl rfl),
   (required_fields_enforced "/redfish/v1/Chassis/Blade1"
      sampleDocNoActions).2.1 _ _ _ _ rfl rfl rfl rfl⟩

/-- C10 witness: the allowed set of the worked example is contained in the
universe. -/
theorem allowed_values_subset_universe_witness :
    (((RESET_TYPE_VALUE_MAP.map Prod.fst).filter
        (fun v => (["GracefulShutdown", "ForceOff"] : List String).contains v)).filterMap
      (assocLookup RESET_TYPE_VALUE_MAP)).toFinset ⊆
      (RESET_TYPE_VALUE_MAP_REV.map Prod.fst).toFinset :=
  allowed_values_subset_universe sampleChassis _ rfl
